import Mathlib

/-!
Verification of the tx-analyzer HTTP service (src/apps/tx-analyzer/src/main.py).

The service registers four GET routes returning static JSON values, applies a
permissive CORS middleware, and, when run as a script, binds uvicorn to host
0.0.0.0 on the port given by the environment variable PORT (default 8002).
We embed the JSON data model, the four handlers, the route dispatch, the CORS
configuration and the entrypoint, and prove the specified properties.
-/

/-- A JSON value, sufficient for the payloads of this service. -/
inductive Json where
  | str : String → Json
  | num : Int → Json
  | arr : List Json → Json
  | obj : List (String × Json) → Json

/-- Field lookup in a JSON object: the first field with the given key. -/
def Json.get? : Json → String → Option Json
  | Json.obj fields, k => (fields.find? (fun f => f.1 == k)).map (fun f => f.2)
  | _, _ => none

/-- Return value of the handler `root` registered at GET `/`. -/
def root : Json :=
  Json.obj [("message", Json.str "TX Analyzer API"), ("version", Json.str "1.0.0")]

/-- Return value of the handler `health_check` registered at GET `/health`. -/
def health_check : Json :=
  Json.obj [("status", Json.str "healthy"), ("service", Json.str "tx-analyzer")]

/-- Return value of the handler `analyze_transactions` registered at GET `/api/v1/analyze`. -/
def analyze_transactions : Json :=
  Json.obj
    [("message", Json.str "Transaction analysis endpoint"),
     ("status", Json.str "not implemented"),
     ("features",
       Json.arr
         [Json.str "Anomaly detection",
          Json.str "Risk scoring",
          Json.str "Whale identification",
          Json.str "Pattern recognition"])]

/-- Return value of the handler `get_anomalies` registered at GET `/api/v1/anomalies`. -/
def get_anomalies : Json :=
  Json.obj
    [("anomalies", Json.arr []),
     ("total", Json.num 0),
     ("message", Json.str "No anomalies detected")]

/-- HTTP methods relevant to the service. -/
inductive Method where
  | GET | HEAD | POST | PUT | DELETE | PATCH | OPTIONS
deriving DecidableEq

/-- The route table: the four paths registered with `app.get`, each mapped to
the JSON value its handler returns. -/
def routeTable : List (String × Json) :=
  [("/", root),
   ("/health", health_check),
   ("/api/v1/analyze", analyze_transactions),
   ("/api/v1/anomalies", get_anomalies)]

/-- The registered paths. -/
def routePaths : List String := routeTable.map (fun r => r.1)

/-- An HTTP response: status code and JSON body. -/
structure Response where
  status : Nat
  body : Json

/-- Modelled from the spec: the framework dispatch is library code outside the
repository; per the spec, a registered path answers GET with status 200 and the
handler's literal, an unsupported method on a registered path yields the
standard method-not-allowed response, and an unregistered path yields the
standard not-found response. -/
def handle (m : Method) (p : String) : Response :=
  match routeTable.find? (fun r => r.1 == p) with
  | some r =>
    if m = Method.GET then Response.mk 200 r.2
    else Response.mk 405 (Json.obj [("detail", Json.str "Method Not Allowed")])
  | none => Response.mk 404 (Json.obj [("detail", Json.str "Not Found")])

/-- The CORS middleware configuration. -/
structure CORSConfig where
  allow_origins : List String
  allow_credentials : Bool
  allow_methods : List String
  allow_headers : List String
deriving DecidableEq

/-- The configuration passed to `app.add_middleware(CORSMiddleware, ...)`. -/
def corsConfig : CORSConfig :=
  CORSConfig.mk ["*"] true ["*"] ["*"]

/-- An origin is allowed when the configuration lists it or lists the wildcard. -/
def originAllowed (c : CORSConfig) (o : String) : Bool :=
  c.allow_origins.contains "*" || c.allow_origins.contains o

/-- A method is allowed when the configuration lists it or lists the wildcard. -/
def methodAllowed (c : CORSConfig) (m : String) : Bool :=
  c.allow_methods.contains "*" || c.allow_methods.contains m

/-- A header is allowed when the configuration lists it or lists the wildcard. -/
def headerAllowed (c : CORSConfig) (h : String) : Bool :=
  c.allow_headers.contains "*" || c.allow_headers.contains h

/-- The CORS response headers induced by the configuration. -/
def corsHeaderList : List (String × String) :=
  [("Access-Control-Allow-Origin", String.intercalate ", " corsConfig.allow_origins),
   ("Access-Control-Allow-Credentials", if corsConfig.allow_credentials then "true" else "false"),
   ("Access-Control-Allow-Methods", String.intercalate ", " corsConfig.allow_methods),
   ("Access-Control-Allow-Headers", String.intercalate ", " corsConfig.allow_headers)]

/-- A full HTTP response: status, headers and JSON body. -/
structure HttpResponse where
  status : Nat
  headers : List (String × String)
  body : Json

/-- Modelled from the spec: the CORS middleware is library code outside the
repository; per the spec it applies uniformly to all routes, answering OPTIONS
preflight on a registered path with 200 and attaching the permissive CORS
headers to every response. -/
def serve (m : Method) (p : String) : HttpResponse :=
  if m = Method.OPTIONS ∧ p ∈ routePaths then
    HttpResponse.mk 200 corsHeaderList (Json.obj [])
  else
    HttpResponse.mk (handle m p).status corsHeaderList (handle m p).body

/-- Operations of the service: one per registered handler. -/
inductive Op where
  | opRoot | opHealth | opAnalyze | opAnomalies
deriving DecidableEq

/-- The module holds no mutable globals, so the server state carries no data. -/
def ServerState : Type := Unit

/-- Executing an operation: produce the handler's value; the state is unchanged
because no handler mutates anything. -/
def step (s : ServerState) (o : Op) : Json × ServerState :=
  match o with
  | Op.opRoot => (root, s)
  | Op.opHealth => (health_check, s)
  | Op.opAnalyze => (analyze_transactions, s)
  | Op.opAnomalies => (get_anomalies, s)

/-- Run a sequence of operations, threading the state. -/
def runOps (s : ServerState) (ops : List Op) : ServerState :=
  ops.foldl (fun t o => (step t o).2) s

/-- Whitespace stripped from both ends of a character list. -/
def stripWs (cs : List Char) : List Char :=
  ((cs.dropWhile Char.isWhitespace).reverse.dropWhile Char.isWhitespace).reverse

/-- Modelled from the spec: the Python builtin `int` applied to a string (not
repository code): leading and trailing whitespace is stripped, an optional
sign may precede the digits, at least one decimal digit is required, and an
underscore may separate digits; any other string raises ValueError (None). -/
def parseIntStr (s : String) : Option Int :=
  match stripWs s.toList with
  | '+' :: rest => (parseDigits rest).map (fun n => (n : Int))
  | '-' :: rest => (parseDigits rest).map (fun n => -(n : Int))
  | rest => (parseDigits rest).map (fun n => (n : Int))
where
  /-- A nonempty digit run, with underscores allowed between digits. -/
  parseDigits (cs : List Char) : Option Nat :=
    match cs with
    | [] => none
    | c :: rest =>
      if c.isDigit && digitRun rest then some (digitsToNat (c :: rest)) else none
  /-- After an initial digit: digits, with each underscore followed by a digit. -/
  digitRun : List Char → Bool
    | [] => true
    | '_' :: c :: rest => c.isDigit && digitRun rest
    | c :: rest => c.isDigit && digitRun rest
  /-- Numeric value of a digit run, ignoring underscores. -/
  digitsToNat (cs : List Char) : Nat :=
    cs.foldl (fun a c => if c == '_' then a else a * 10 + (c.toNat - 48)) 0

/-- `int(os.getenv("PORT", 8002))`: the integer default 8002 when PORT is
unset, otherwise the conversion of the string value, which may fail. -/
def portFromEnv (env : Option String) : Option Int :=
  match env with
  | none => some 8002
  | some s => parseIntStr s

/-- The arguments of the `uvicorn.run` call in the `__main__` block. -/
structure RunConfig where
  appRef : String
  host : String
  port : Int
  reload : Bool
deriving DecidableEq

/-- The `__main__` block: compute the port from the environment, then run
uvicorn on host 0.0.0.0 with that port; an unparsable PORT raises before
uvicorn is reached. -/
def mainEntry (env : Option String) : Except String RunConfig :=
  match portFromEnv env with
  | none => Except.error "ValueError: invalid literal for int() with base 10"
  | some p => Except.ok (RunConfig.mk "main:app" "0.0.0.0" p true)

/-- Claim C1: every GET request to `/` is answered with status 200 and body
exactly the object with message "TX Analyzer API" and version "1.0.0". -/
theorem c1_root_response :
    handle Method.GET "/" =
      Response.mk 200
        (Json.obj [("message", Json.str "TX Analyzer API"),
                   ("version", Json.str "1.0.0")]) := rfl

/-- Claim C2: every GET request to `/health` is answered with status 200 and
body exactly the object with status "healthy" and service "tx-analyzer". -/
theorem c2_health_response :
    handle Method.GET "/health" =
      Response.mk 200
        (Json.obj [("status", Json.str "healthy"),
                   ("service", Json.str "tx-analyzer")]) := rfl

/-- Claim C3: the features field of the GET `/api/v1/analyze` response is the
four strings "Anomaly detection", "Risk scoring", "Whale identification",
"Pattern recognition", in that order. -/
theorem c3_analyze_features :
    (handle Method.GET "/api/v1/analyze").body.get? "features" =
      some (Json.arr
        [Json.str "Anomaly detection",
         Json.str "Risk scoring",
         Json.str "Whale identification",
         Json.str "Pattern recognition"]) := rfl

/-- Claim C4: every invocation of `get_anomalies` yields total 0 and an empty
anomalies sequence, and repeated calls never change the result. -/
theorem c4_anomalies_empty :
    ∀ (s t : ServerState),
      (step s Op.opAnomalies).1 = (step t Op.opAnomalies).1 ∧
      (step s Op.opAnomalies).1.get? "total" = some (Json.num 0) ∧
      (step s Op.opAnomalies).1.get? "anomalies" = some (Json.arr []) :=
  fun _ _ => ⟨rfl, rfl, rfl⟩

/-- Claim C5: every one of the four operations is stateless: its result is the
same after any two histories of prior calls. -/
theorem c5_stateless :
    ∀ (s t : ServerState) (hist1 hist2 : List Op) (o : Op),
      (step (runOps s hist1) o).1 = (step (runOps t hist2) o).1 := by
  intro s t hist1 hist2 o
  cases o <;> rfl

/-- Claim C6: every request to a registered route, OPTIONS preflight included,
is answered with the permissive CORS headers, and the configuration allows any
origin, any method, any header, and credentialed requests. -/
theorem c6_cors_permissive :
    ∀ (m : Method) (p origin mname hname : String), p ∈ routePaths →
      ("Access-Control-Allow-Origin", "*") ∈ (serve m p).headers ∧
      ("Access-Control-Allow-Credentials", "true") ∈ (serve m p).headers ∧
      ("Access-Control-Allow-Methods", "*") ∈ (serve m p).headers ∧
      ("Access-Control-Allow-Headers", "*") ∈ (serve m p).headers ∧
      originAllowed corsConfig origin = true ∧
      methodAllowed corsConfig mname = true ∧
      headerAllowed corsConfig hname = true := by
  intro m p origin mname hname hp
  have hhd : (serve m p).headers = corsHeaderList := by
    unfold serve
    split <;> rfl
  rw [hhd]
  refine ⟨by decide, by decide, by decide, by decide, ?_, ?_, ?_⟩
  · unfold originAllowed
    have hw : corsConfig.allow_origins.contains "*" = true := by decide
    rw [hw]
    exact Bool.true_or _
  · unfold methodAllowed
    have hw : corsConfig.allow_methods.contains "*" = true := by decide
    rw [hw]
    exact Bool.true_or _
  · unfold headerAllowed
    have hw : corsConfig.allow_headers.contains "*" = true := by decide
    rw [hw]
    exact Bool.true_or _

/-- Witness for C6 at the concrete route `/` with an OPTIONS preflight. -/
theorem c6_cors_permissive_witness :
    ("Access-Control-Allow-Origin", "*") ∈ (serve Method.OPTIONS "/").headers ∧
    originAllowed corsConfig "https://example.com" = true :=
  ⟨(c6_cors_permissive Method.OPTIONS "/" "https://example.com" "POST" "X-Custom"
      (by decide)).1,
   (c6_cors_permissive Method.OPTIONS "/" "https://example.com" "POST" "X-Custom"
      (by decide)).2.2.2.2.1⟩

/-- Claim C7: the entrypoint binds host 0.0.0.0 on port 8002 when PORT is
unset, and on the integer value of PORT when it is set and parses. -/
theorem c7_port_binding :
    mainEntry none = Except.ok (RunConfig.mk "main:app" "0.0.0.0" 8002 true) ∧
    ∀ (s : String) (n : Int), parseIntStr s = some n →
      mainEntry (some s) = Except.ok (RunConfig.mk "main:app" "0.0.0.0" n true) := by
  refine ⟨rfl, ?_⟩
  intro s n h
  have hp : portFromEnv (some s) = some n := h
  unfold mainEntry
  rw [hp]

/-- Witness for C7: PORT set to the non-default 9090 binds port 9090. -/
theorem c7_port_binding_witness :
    mainEntry (some "9090") = Except.ok (RunConfig.mk "main:app" "0.0.0.0" 9090 true) :=
  c7_port_binding.2 "9090" 9090 (by decide)

/-- Claim C8: an unregistered path is answered 404 under any method, and a
non-GET method on a registered path is answered 405. -/
theorem c8_default_errors :
    (∀ (m : Method) (p : String), p ∉ routePaths → (handle m p).status = 404) ∧
    (∀ (m : Method) (p : String), p ∈ routePaths → m ≠ Method.GET →
      (handle m p).status = 405) := by
  constructor
  · intro m p hp
    have hfind : routeTable.find? (fun r => r.1 == p) = none := by
      rw [List.find?_eq_none]
      intro r hr
      simp only [beq_iff_eq]
      intro h
      exact hp (h ▸ List.mem_map_of_mem (fun x => x.1) hr)
    unfold handle
    rw [hfind]
  · intro m p hp hm
    have hp2 : p ∈ routeTable.map (fun r => r.1) := hp
    obtain ⟨r, hr, hrp⟩ := List.mem_map.mp hp2
    unfold handle
    cases hfind : routeTable.find? (fun x => x.1 == p) with
    | none =>
      rw [List.find?_eq_none] at hfind
      exact absurd (by simp [hrp]) (hfind r hr)
    | some r2 =>
      simp [hm]

/-- Witness for C8: `/nope` yields 404 and POST on `/` yields 405. -/
theorem c8_default_errors_witness :
    (handle Method.GET "/nope").status = 404 ∧ (handle Method.POST "/").status = 405 :=
  ⟨c8_default_errors.1 Method.GET "/nope" (by decide),
   c8_default_errors.2 Method.POST "/" (by decide) (by decide)⟩

/-- Claim C9: a PORT value that does not parse as an integer makes startup
fail with the conversion error; the default 8002 is never used as a fallback
for a set but unparsable value. -/
theorem c9_invalid_port :
    ∀ s : String, parseIntStr s = none →
      mainEntry (some s) =
        Except.error "ValueError: invalid literal for int() with base 10" := by
  intro s h
  have hp : portFromEnv (some s) = none := h
  unfold mainEntry
  rw [hp]

/-- Witness for C9 at the unparsable value "abc". -/
theorem c9_invalid_port_witness :
    mainEntry (some "abc") =
      Except.error "ValueError: invalid literal for int() with base 10" :=
  c9_invalid_port "abc" (by decide)

/-- Claim C10: in the `get_anomalies` response, the total field equals the
length of the anomalies sequence. -/
theorem c10_total_is_length :
    ∀ (l : List Json), get_anomalies.get? "anomalies" = some (Json.arr l) →
      get_anomalies.get? "total" = some (Json.num l.length) := by
  intro l h
  have h0 : get_anomalies.get? "anomalies" = some (Json.arr []) := rfl
  have h2 : Json.arr [] = Json.arr l := Option.some.inj (h0.symm.trans h)
  injection h2 with h3
  rw [← h3]
  rfl

/-- Witness for C10 at the actual anomalies value, the empty sequence. -/
theorem c10_total_is_length_witness :
    get_anomalies.get? "total" = some (Json.num (List.length ([] : List Json))) :=
  c10_total_is_length [] rfl
